import Mathlib

/-!
# xray: camera focal-plane geometry and mesh ingestion

A shallow embedding of `src/xray/camera.cc` and `src/xray/mesh.cc`.

The constructor of `Camera` is written over an arithmetic `FloatOps F`: every `float`
operation of the source is one operation of the arithmetic, in the order of the source.
Two arithmetics are given: `binary32`, where each operation rounds to the nearest
single-precision value, and `exactOps`, the same operations without rounding in an ordered
field.  The mesh code is written over an ordered field; the library functions `tanf` and
`sqrtf` are parameters.  Every definition is executable on `F32` or `ℚ`.
-/

namespace Xray

/-! ## Vectors -/

/-- Three floats: `optix::float3` and `aiVector3D`. -/
structure Float3 (K : Type) where
  x : K
  y : K
  z : K
deriving DecidableEq

/-- Three ints: `optix::int3`. -/
structure Int3 where
  x : Int
  y : Int
  z : Int
deriving DecidableEq

section Numeric

variable {K : Type} [LinearOrderedField K]

/-- Componentwise sum, `operator+` on `optix::float3`. -/
def Float3.add (a b : Float3 K) : Float3 K :=
  ⟨a.x + b.x, a.y + b.y, a.z + b.z⟩

/-- Scaling, `operator*` of `optix::float3` with a float. -/
def Float3.scale (a : Float3 K) (s : K) : Float3 K :=
  ⟨a.x * s, a.y * s, a.z * s⟩

/-- Dot product, `optix::dot`. -/
def Float3.dot (a b : Float3 K) : K :=
  a.x * b.x + a.y * b.y + a.z * b.z

/-- `optix::make_float3(x, y, z)`. -/
def make_float3 (x y z : K) : Float3 K := ⟨x, y, z⟩

/-- `optix::make_int3(s)`: the same value in the three components. -/
def make_int3_1 (s : Int) : Int3 := ⟨s, s, s⟩

/-- `optix::make_int3(x, y, z)`. -/
def make_int3 (x y z : Int) : Int3 := ⟨x, y, z⟩

/-! ## optix::Aabb and optix::normalize -/

/-- Modelled from the spec: `optix::Aabb`, declared in the OptiX headers and not under src/:
an axis-aligned box given by its min and max corner. -/
structure Aabb (K : Type) where
  m_min : Float3 K
  m_max : Float3 K
deriving DecidableEq

/-- Modelled from the spec: `optix::fminf` on `float3`, the componentwise minimum. -/
def fminf3 (a b : Float3 K) : Float3 K :=
  ⟨min a.x b.x, min a.y b.y, min a.z b.z⟩

/-- Modelled from the spec: `optix::fmaxf` on `float3`, the componentwise maximum. -/
def fmaxf3 (a b : Float3 K) : Float3 K :=
  ⟨max a.x b.x, max a.y b.y, max a.z b.z⟩

/-- Modelled from the spec: the default constructor `optix::Aabb()`, the empty/invalid box;
OptiX sets the min corner to `1e37f` and the max corner to `-1e37f`. -/
def Aabb.invalid : Aabb K :=
  ⟨make_float3 (10 ^ 37) (10 ^ 37) (10 ^ 37), make_float3 (-10 ^ 37) (-10 ^ 37) (-10 ^ 37)⟩

/-- Modelled from the spec: `optix::Aabb::include(const float3&)`, the min/max update. -/
def Aabb.include (b : Aabb K) (p : Float3 K) : Aabb K :=
  ⟨fminf3 b.m_min p, fmaxf3 b.m_max p⟩

/-- Modelled from the spec: `optix::normalize`, `v * (1.0f / sqrtf(dot(v, v)))`. -/
def normalize (sqrtf : K → K) (v : Float3 K) : Float3 K :=
  v.scale (1 / sqrtf (v.dot v))

end Numeric

/-! ## Float arithmetic -/

/-- The `float` operations `Camera::Camera` uses: product, quotient, negation, the
conversion `float(int)`, the literals `0.5f`, `2.0f`, `-2.0f`, and `tanf`. -/
structure FloatOps (F : Type) where
  mul : F → F → F
  div : F → F → F
  neg : F → F
  ofInt : Int → F
  half : F
  two : F
  negTwo : F
  tanf : F → F

/-- The operations without rounding, in an ordered field. -/
def exactOps {K : Type} [LinearOrderedField K] (tanf : K → K) : FloatOps K :=
  { mul := fun a b => a * b
    div := fun a b => a / b
    neg := fun a => -a
    ofInt := fun n => (n : K)
    half := 0.5
    two := 2.0
    negTwo := -2.0
    tanf := tanf }

/-- A finite single-precision value `m * 2 ^ e`, kept normalised: `m = 0` and `e = 0`, or
`2 ^ 23 ≤ |m| < 2 ^ 24`. The exponent is not bounded: overflow to infinity, subnormal
values and NaN are outside this type. -/
structure F32 where
  m : Int
  e : Int
deriving DecidableEq

/-- The integer nearest to `p / q`, ties to the even one (`q > 0`). -/
def roundNearestEven (p q : Nat) : Nat :=
  if 2 * (p % q) < q then p / q
  else if q < 2 * (p % q) then p / q + 1
  else if (p / q) % 2 = 0 then p / q
  else p / q + 1

/-- The number of binary digits of `n`, by halving at most `fuel` times. -/
def bitLength : Nat → Nat → Nat
  | 0, _ => 0
  | fuel + 1, n => if n = 0 then 0 else bitLength fuel (n / 2) + 1

/-- The fraction `p / q` scaled by `2 ^ s`, as a numerator and a denominator. -/
def F32.scaled (p q : Nat) (s : Int) : Nat × Nat :=
  if 0 ≤ s then (p * 2 ^ s.toNat, q) else (p, q * 2 ^ (-s).toNat)

/-- The shift `s` with `2 ^ 23 ≤ (p / q) * 2 ^ s < 2 ^ 24`, for `p, q > 0`. -/
def F32.shift (p q : Nat) : Int :=
  let s0 : Int := 23 - ((bitLength p p : Int) - (bitLength q q : Int))
  if (F32.scaled p q s0).1 < 2 ^ 23 * (F32.scaled p q s0).2 then s0 + 1 else s0

/-- Round-to-nearest-even of `± (p / q) * 2 ^ e` to 24 significant bits; `0` when `p = 0`
(and, as a convention, when `q = 0`). -/
def F32.round (negative : Bool) (p q : Nat) (e : Int) : F32 :=
  if p = 0 ∨ q = 0 then ⟨0, 0⟩
  else
    let s := F32.shift p q
    let n := roundNearestEven (F32.scaled p q s).1 (F32.scaled p q s).2
    let m : Int := if n = 2 ^ 24 then 2 ^ 23 else n
    let e2 : Int := if n = 2 ^ 24 then e - s + 1 else e - s
    ⟨if negative then -m else m, e2⟩

/-- The rounded product of two floats. -/
def F32.mul (a b : F32) : F32 :=
  F32.round (decide (a.m < 0) != decide (b.m < 0)) (a.m.natAbs * b.m.natAbs) 1 (a.e + b.e)

/-- The rounded quotient of two floats. -/
def F32.div (a b : F32) : F32 :=
  F32.round (decide (a.m < 0) != decide (b.m < 0)) a.m.natAbs b.m.natAbs (a.e - b.e)

/-- The negation of a float. -/
def F32.neg (a : F32) : F32 := ⟨-a.m, a.e⟩

/-- The conversion `float(n)` of an `int`, rounded. -/
def F32.ofInt (n : Int) : F32 :=
  F32.round (decide (n < 0)) n.natAbs 1 0

/-- The order of two floats, `a ≤ b`, on the common exponent. -/
def F32.le (a b : F32) : Prop :=
  a.m * 2 ^ (a.e - min a.e b.e).toNat ≤ b.m * 2 ^ (b.e - min a.e b.e).toNat

instance F32.decidableLe (a b : F32) : Decidable (F32.le a b) :=
  inferInstanceAs (Decidable (a.m * 2 ^ (a.e - min a.e b.e).toNat
    ≤ b.m * 2 ^ (b.e - min a.e b.e).toNat))

/-- The numeric members of `Camera` set by its constructor. -/
structure Camera (F : Type) where
  _focalLength : F
  _lensRadius : F
  _w : Int
  _h : Int
  _focalPlaneUp : F
  _focalPlaneRight : F
  _focalPlaneOrigin : Float3 F

/-- The two locals `(halfFocalPlaneUp, halfFocalPlaneRight)` of the constructor,
camera.cc lines 21-30. -/
def Camera.halfFocalPlane {F : Type} (A : FloatOps F) (_w _h : Int) (fov _focalLength : F) :
    F × F :=
  if _w > _h then
    let halfFocalPlaneUp := A.mul _focalLength (A.tanf (A.mul A.half fov))
    let halfFocalPlaneRight := A.div (A.mul halfFocalPlaneUp (A.ofInt _w)) (A.ofInt _h)
    (halfFocalPlaneUp, halfFocalPlaneRight)
  else
    let halfFocalPlaneRight := A.mul _focalLength (A.tanf (A.mul A.half fov))
    let halfFocalPlaneUp := A.div (A.mul halfFocalPlaneRight (A.ofInt _h)) (A.ofInt _w)
    (halfFocalPlaneUp, halfFocalPlaneRight)

/-- The constructor `Camera::Camera`, camera.cc lines 4-34 (the member initialisers and the
ray-tracing vectors; the buffer and program set-up of lines 36-48 does not touch them). -/
def Camera.ctor {F : Type} (A : FloatOps F) (ww hh : Int) (fov len fStop : F) : Camera F :=
  let _focalLength := len
  let _lensRadius := A.mul (A.div len fStop) A.half
  let _w := ww
  let _h := hh
  let half := Camera.halfFocalPlane A _w _h fov _focalLength
  let halfFocalPlaneUp := half.1
  let halfFocalPlaneRight := half.2
  { _focalLength := _focalLength
    _lensRadius := _lensRadius
    _w := _w
    _h := _h
    _focalPlaneUp := A.mul A.negTwo halfFocalPlaneUp
    _focalPlaneRight := A.mul A.two halfFocalPlaneRight
    _focalPlaneOrigin :=
      ⟨A.neg halfFocalPlaneRight, halfFocalPlaneUp, A.neg _focalLength⟩ }

/-! ## The importer output (assimp) -/

/-- One face `aiFace`: `mIndices` is an array of `unsigned int`, `mNumIndices` its length. -/
structure AiFace where
  mIndices : List Nat
deriving DecidableEq

/-- The number of indices of a face. -/
def AiFace.mNumIndices (f : AiFace) : Nat := f.mIndices.length

/-- One sub-mesh `aiMesh`. `none` for `mVertices` or `mNormals` is the null pointer. -/
structure AiMesh (K : Type) where
  mNumVertices : Nat
  mVertices : Option (List (Float3 K))
  mNormals : Option (List (Float3 K))
  mFaces : List AiFace

/-- The number of faces of a sub-mesh. -/
def AiMesh.mNumFaces {K : Type} (m : AiMesh K) : Nat := m.mFaces.length

/-- `aiMesh::HasPositions()`: `mVertices != nullptr && mNumVertices > 0`. -/
def AiMesh.HasPositions {K : Type} (m : AiMesh K) : Bool :=
  m.mVertices.isSome && decide (m.mNumVertices > 0)

/-- `aiMesh::HasNormals()`: `mNormals != nullptr && mNumVertices > 0`. -/
def AiMesh.HasNormals {K : Type} (m : AiMesh K) : Bool :=
  m.mNormals.isSome && decide (m.mNumVertices > 0)

/-- The imported scene `aiScene`; `mNumMeshes` is the length of `mMeshes`. -/
structure AiScene (K : Type) where
  mMeshes : List (AiMesh K)

/-- The number of sub-meshes of a scene. -/
def AiScene.mNumMeshes {K : Type} (s : AiScene K) : Nat := s.mMeshes.length

/-- The state of an `Assimp::Importer` after `ReadFile`: the scene pointer (`none` is null)
and the text returned by `GetErrorString()`. -/
structure Importer (K : Type) where
  scene : Option (AiScene K)
  GetErrorString : String

/-- The limit `AI_MAX_VERTICES` of assimp. -/
def AI_MAX_VERTICES : Nat := 0x7fffffff

/-- What `aiProcess_ValidateDataStructure` (mesh.cc line 54) guarantees of a sub-mesh the
importer returns: at most `AI_MAX_VERTICES` vertices, every face index below the
vertex count. -/
def ValidatedMesh {K : Type} (m : AiMesh K) : Prop :=
  m.mNumVertices ≤ AI_MAX_VERTICES ∧ ∀ f ∈ m.mFaces, ∀ i ∈ f.mIndices, i < m.mNumVertices

/-- Conversion of an `unsigned int` argument to the `int` parameter of `make_int3`
(32-bit two's complement). -/
def toInt32 (u : Nat) : Int :=
  if u % 2 ^ 32 < 2 ^ 31 then ((u % 2 ^ 32 : Nat) : Int) else ((u % 2 ^ 32 : Nat) : Int) - 2 ^ 32

/-! ## The OptiX context and buffers -/

/-- The element formats used by mesh.cc. -/
inductive RTformat where
  | RT_FORMAT_FLOAT3
  | RT_FORMAT_INT3
deriving DecidableEq

/-- A buffer object with its mapped contents. -/
inductive Buffer (K : Type) where
  | float3 (data : List (Float3 K))
  | int3 (data : List Int3)

/-- The context, as the list of the buffers created on it (format, element count),
latest first. -/
structure Context where
  created : List (RTformat × Nat)
deriving DecidableEq

/-- `_ctx->createBuffer(RT_BUFFER_INPUT, format, size)`. -/
def Context.createBuffer (ctx : Context) (format : RTformat) (size : Nat) : Context :=
  ⟨(format, size) :: ctx.created⟩

/-- What mesh.cc throws: `std::runtime_error` with its message. -/
inductive Exn where
  | runtime_error (what : String)
deriving DecidableEq

/-! ## Mesh (mesh.cc) -/

/-- The members of `Mesh` (with those of its base `Geom` that mesh.cc uses): the context,
the origin offset, the three buffer handles (`none` is the null handle), the face count,
the bounding box, the buffer variables set on `_geom`, and whether `freeze()` has run. -/
structure Mesh (K : Type) where
  _ctx : Context
  _origin : Float3 K
  _vertices : Option (Buffer K)
  _normals : Option (Buffer K)
  _faces : Option (Buffer K)
  _numFaces : Nat
  _bounds : Aabb K
  _geom : List (String × Option (Buffer K))
  frozen : Bool

/-- The mapped arrays and the local box `b` of the vertex loop, mesh.cc lines 92-108. -/
structure VertexLoop (K : Type) where
  vertexMap : List (Float3 K)
  normalMap : List (Float3 K)
  b : Aabb K

section MeshOps

variable {K : Type} [LinearOrderedField K]

/-- `Mesh::getPrimitiveCount`, mesh.cc lines 26-28. -/
def Mesh.getPrimitiveCount (self : Mesh K) : Nat := self._numFaces

/-- `Mesh::getBoundingBox`, mesh.cc lines 133-135. -/
def Mesh.getBoundingBox (self : Mesh K) : Aabb K := self._bounds

/-- The contents of a freshly created buffer of `n` elements before the loops write it. -/
def freshFloat3 (n : Nat) : List (Float3 K) := List.replicate n ⟨0, 0, 0⟩

/-- The contents of a freshly created index buffer of `n` elements. -/
def freshInt3 (n : Nat) : List Int3 := List.replicate n ⟨0, 0, 0⟩

/-- One iteration `i` of the vertex loop, mesh.cc lines 99-107: the offset position goes
to `vertexMap[i]`, the normalized normal to `normalMap[i]`, and the box includes
`vertexMap[i]` as read back from the buffer. -/
def Mesh.vertexStep (sqrtf : K → K) (_origin : Float3 K) (mVertices mNormals : List (Float3 K))
    (st : VertexLoop K) (i : Nat) : VertexLoop K :=
  let thisPos := mVertices.getD i ⟨0, 0, 0⟩
  let thisNorm := mNormals.getD i ⟨0, 0, 0⟩
  let vertexMap := st.vertexMap.set i ((make_float3 thisPos.x thisPos.y thisPos.z).add _origin)
  let normalMap :=
    st.normalMap.set i (normalize sqrtf (make_float3 thisNorm.x thisNorm.y thisNorm.z))
  { vertexMap := vertexMap
    normalMap := normalMap
    b := st.b.include (vertexMap.getD i ⟨0, 0, 0⟩) }

/-- The vertex loop `for (i = 0; i < mNumVertices; ++i)`, mesh.cc lines 96-108, started on
fresh buffers of `mNumVertices` elements and the default-constructed box `b`. -/
def Mesh.vertexLoop (sqrtf : K → K) (_origin : Float3 K) (mVertices mNormals : List (Float3 K))
    (mNumVertices : Nat) : VertexLoop K :=
  (List.range mNumVertices).foldl (Mesh.vertexStep sqrtf _origin mVertices mNormals)
    { vertexMap := freshFloat3 mNumVertices
      normalMap := freshFloat3 mNumVertices
      b := Aabb.invalid }

/-- The tuple stored for one face, mesh.cc lines 116-124. -/
def Mesh.faceTuple (face : AiFace) : Int3 :=
  if face.mNumIndices = 3 then
    make_int3 (toInt32 (face.mIndices.getD 0 0)) (toInt32 (face.mIndices.getD 1 0))
      (toInt32 (face.mIndices.getD 2 0))
  else
    make_int3_1 (-1)

/-- The face loop `for (i = 0; i < mNumFaces; ++i)`, mesh.cc lines 112-125, started on a
fresh index buffer of `mNumFaces` elements. -/
def Mesh.faceLoop (mFaces : List AiFace) (mNumFaces : Nat) : List Int3 :=
  (List.range mNumFaces).foldl
    (fun faceMap i => faceMap.set i (Mesh.faceTuple (mFaces.getD i ⟨[]⟩)))
    (freshInt3 mNumFaces)

/-- `Mesh::readPolyModel`, mesh.cc lines 42-131. `ReadFile` is `importer.ReadFile` with the
post-processing flags of lines 49-54, as a function of the file name; the result is the
outcome (normal return or the exception thrown) together with the state of the mesh at
that point. The local box `b` of the vertex loop is not stored anywhere. -/
def Mesh.readPolyModel (ReadFile : String → Importer K) (sqrtf : K → K) (name : String)
    (self : Mesh K) : Except Exn Unit × Mesh K :=
  let importer := ReadFile name
  match importer.scene with
  | none => (.error (.runtime_error importer.GetErrorString), self)
  | some scene =>
    match scene.mMeshes with
    | [] => (.ok (), self)
    | mesh :: _ =>
      if !mesh.HasPositions then
        (.error (.runtime_error "No vertex positions on the mesh"), self)
      else if !mesh.HasNormals then
        (.error (.runtime_error "No vertex normals on the mesh"), self)
      else
        let ctx1 := self._ctx.createBuffer .RT_FORMAT_FLOAT3 mesh.mNumVertices
        let ctx2 := ctx1.createBuffer .RT_FORMAT_FLOAT3 mesh.mNumVertices
        let ctx3 := ctx2.createBuffer .RT_FORMAT_INT3 mesh.mNumFaces
        let loop := Mesh.vertexLoop sqrtf self._origin (mesh.mVertices.getD [])
          (mesh.mNormals.getD []) mesh.mNumVertices
        let faceMap := Mesh.faceLoop mesh.mFaces mesh.mNumFaces
        (.ok (),
          { self with
            _ctx := ctx3
            _vertices := some (.float3 loop.vertexMap)
            _normals := some (.float3 loop.normalMap)
            _faces := some (.int3 faceMap)
            _numFaces := mesh.mNumFaces })

/-- A `Mesh` object when the body of its constructor starts, mesh.cc lines 6-8: `_origin`
is set, the buffer handles are null, `_bounds` is the default-constructed box, and the
`unsigned` member `_numFaces`, which the initialiser list does not set, holds `numFaces0`. -/
def Mesh.init (ctx : Context) (origin : Float3 K) (numFaces0 : Nat) : Mesh K :=
  { _ctx := ctx
    _origin := origin
    _vertices := none
    _normals := none
    _faces := none
    _numFaces := numFaces0
    _bounds := Aabb.invalid
    _geom := []
    frozen := false }

/-- The constructor `Mesh::Mesh`, mesh.cc lines 6-16: read the model, set the three buffer
variables on `_geom`, freeze. An exception of `readPolyModel` leaves the constructor. -/
def Mesh.ctor (ReadFile : String → Importer K) (sqrtf : K → K) (ctx : Context)
    (origin : Float3 K) (name : String) (numFaces0 : Nat) : Except Exn (Mesh K) :=
  match Mesh.readPolyModel ReadFile sqrtf name (Mesh.init ctx origin numFaces0) with
  | (.error e, _) => .error e
  | (.ok (), self) =>
    let g1 := ("vertexBuffer", self._vertices) :: self._geom
    let g2 := ("normalBuffer", self._normals) :: g1
    let g3 := ("faceIndices", self._faces) :: g2
    .ok { self with _geom := g3, frozen := true }

end MeshOps

/-! ## Sample importer outputs -/

/-- The unit cube centred at the origin: 8 vertices, unit normals, 12 triangles. -/
def cubeMesh : AiMesh ℚ :=
  { mNumVertices := 8
    mVertices := some
      [⟨-1/2, -1/2, -1/2⟩, ⟨1/2, -1/2, -1/2⟩, ⟨1/2, 1/2, -1/2⟩, ⟨-1/2, 1/2, -1/2⟩,
       ⟨-1/2, -1/2, 1/2⟩, ⟨1/2, -1/2, 1/2⟩, ⟨1/2, 1/2, 1/2⟩, ⟨-1/2, 1/2, 1/2⟩]
    mNormals := some
      [⟨0, 0, -1⟩, ⟨0, 0, -1⟩, ⟨0, 0, -1⟩, ⟨0, 0, -1⟩,
       ⟨0, 0, 1⟩, ⟨0, 0, 1⟩, ⟨0, 0, 1⟩, ⟨0, 0, 1⟩]
    mFaces :=
      [⟨[0, 2, 1]⟩, ⟨[0, 3, 2]⟩, ⟨[4, 5, 6]⟩, ⟨[4, 6, 7]⟩, ⟨[0, 1, 5]⟩, ⟨[0, 5, 4]⟩,
       ⟨[3, 7, 6]⟩, ⟨[3, 6, 2]⟩, ⟨[0, 4, 7]⟩, ⟨[0, 7, 3]⟩, ⟨[1, 2, 6]⟩, ⟨[1, 6, 5]⟩] }

/-- A square of 4 vertices given as a triangle, a quad and a triangle. -/
def quadMesh : AiMesh ℚ :=
  { mNumVertices := 4
    mVertices := some [⟨0, 0, 0⟩, ⟨1, 0, 0⟩, ⟨1, 1, 0⟩, ⟨0, 1, 0⟩]
    mNormals := some [⟨0, 0, 1⟩, ⟨0, 0, 1⟩, ⟨0, 0, 1⟩, ⟨0, 0, 1⟩]
    mFaces := [⟨[0, 1, 2]⟩, ⟨[0, 1, 2, 3]⟩, ⟨[0, 2, 3]⟩] }

/-- A triangle whose sub-mesh has positions but no normals. -/
def noNormalsMesh : AiMesh ℚ :=
  { mNumVertices := 3
    mVertices := some [⟨0, 0, 0⟩, ⟨1, 0, 0⟩, ⟨0, 1, 0⟩]
    mNormals := none
    mFaces := [⟨[0, 1, 2]⟩] }

/-- A sub-mesh without positions. -/
def noPositionsMesh : AiMesh ℚ :=
  { mNumVertices := 0
    mVertices := none
    mNormals := none
    mFaces := [] }

/-- An importer that returns the scene made of the given sub-meshes for every file. -/
def sceneOf (meshes : List (AiMesh ℚ)) : String → Importer ℚ :=
  fun _ => { scene := some ⟨meshes⟩, GetErrorString := "" }

/-- An importer that fails on every file. -/
def noScene : String → Importer ℚ :=
  fun _ => { scene := none, GetErrorString := "Unable to open file" }

/-- A mesh object at the start of its constructor, on a context without buffers. -/
def mesh0 : Mesh ℚ := Mesh.init ⟨[]⟩ ⟨0, 0, 0⟩ 0

/-! ## Sample camera inputs -/

section CameraLemmas

variable {K : Type} [LinearOrderedField K]

/-- The landscape branch without rounding. -/
theorem Camera.halfFocalPlane_landscape (tanf : K → K) (w h : Int) (fov len : K) (hwh : w > h) :
    Camera.halfFocalPlane (exactOps tanf) w h fov len
      = (len * tanf (0.5 * fov), len * tanf (0.5 * fov) * (w : K) / (h : K)) := by
  simp [Camera.halfFocalPlane, exactOps, hwh]

/-- The portrait or square branch without rounding. -/
theorem Camera.halfFocalPlane_portrait (tanf : K → K) (w h : Int) (fov len : K) (hwh : h ≥ w) :
    Camera.halfFocalPlane (exactOps tanf) w h fov len
      = (len * tanf (0.5 * fov) * (h : K) / (w : K), len * tanf (0.5 * fov)) := by
  have : ¬ w > h := not_lt.mpr hwh
  simp [Camera.halfFocalPlane, exactOps, this]

theorem half_mul_eq (fov : K) : (0.5 : K) * fov = fov / 2 := by
  norm_num
  ring

/-- Without rounding, the quotient of the two focal-plane sizes is minus the aspect
quotient as soon as the shorter half-extent `len * tanf (0.5 * fov)` is not zero. -/
theorem Camera.planeRight_div_planeUp (tanf : K → K) (w h : Int) (fov len fStop : K)
    (hw : 0 < w) (hh : 0 < h) (ht : len * tanf (0.5 * fov) ≠ 0) :
    (Camera.ctor (exactOps tanf) w h fov len fStop)._focalPlaneRight
        / (Camera.ctor (exactOps tanf) w h fov len fStop)._focalPlaneUp
      = -((w : K) / (h : K)) := by
  have hw0 : (w : K) ≠ 0 := by exact_mod_cast hw.ne.symm
  have hh0 : (h : K) ≠ 0 := by exact_mod_cast hh.ne.symm
  by_cases hwh : w > h
  · simp only [Camera.ctor, Camera.halfFocalPlane_landscape tanf w h fov len hwh]
    simp only [exactOps]
    field_simp
    ring
  · have hge : h ≥ w := not_lt.mp hwh
    simp only [Camera.ctor, Camera.halfFocalPlane_portrait tanf w h fov len hge]
    simp only [exactOps]
    field_simp
    ring

theorem Real_tan_half_pos (fov : ℝ) (h0 : 0 < fov) (h1 : fov < Real.pi) :
    0 < Real.tan (0.5 * fov) := by
  apply Real.tan_pos_of_pos_of_lt_pi_div_two
  · positivity
  · rw [half_mul_eq]
    linarith

end CameraLemmas

/-- C6, as the code has it: for `w > 0`, `h > 0`, `fov` in `(0, π)` and `focalLength > 0`
the quotient `planeRight / planeUp` is `-(w / h)`: the aspect quotient with a minus sign,
`planeUp` being negative. -/
theorem Camera.plane_quotient (w h : Int) (fov len fStop : ℝ) (hw : 0 < w) (hh : 0 < h)
    (hf0 : 0 < fov) (hf1 : fov < Real.pi) (hlen : 0 < len) :
    (Camera.ctor (exactOps Real.tan) w h fov len fStop)._focalPlaneRight
        / (Camera.ctor (exactOps Real.tan) w h fov len fStop)._focalPlaneUp
      = -((w : ℝ) / (h : ℝ)) :=
  Camera.planeRight_div_planeUp Real.tan w h fov len fStop hw hh
    (mul_pos hlen (Real_tan_half_pos fov hf0 hf1)).ne.symm

/-- Witness of the amended C6 at the scenario camera: 1920 x 1080, 90 degrees, focal
length 1. -/
theorem Camera.plane_quotient_witness :
    (Camera.ctor (exactOps Real.tan) 1920 1080 (Real.pi / 2) 1 2)._focalPlaneRight
        / (Camera.ctor (exactOps Real.tan) 1920 1080 (Real.pi / 2) 1 2)._focalPlaneUp
      = -((((1920 : Int) : ℝ)) / (((1080 : Int) : ℝ))) :=
  Camera.plane_quotient 1920 1080 (Real.pi / 2) 1 2 (by decide) (by decide)
    (by positivity) (by linarith [Real.pi_pos]) one_pos

/-- C6 as stated fails: for the camera with `w = 1920`, `h = 1080`, `fov` of 90 degrees and
focal length 1, `planeRight / planeUp` is not `1920 / 1080` (it is `-(1920 / 1080)`). -/
theorem Camera.plane_quotient_counterexample :
    (Camera.ctor (exactOps Real.tan) 1920 1080 (Real.pi / 2) 1 2)._focalPlaneRight
        / (Camera.ctor (exactOps Real.tan) 1920 1080 (Real.pi / 2) 1 2)._focalPlaneUp
      ≠ (((1920 : Int) : ℝ)) / (((1080 : Int) : ℝ)) := by
  have ht : (1 : ℝ) * Real.tan (0.5 * (Real.pi / 2)) ≠ 0 :=
    (mul_pos one_pos (Real_tan_half_pos (Real.pi / 2) (by positivity)
      (by linarith [Real.pi_pos]))).ne.symm
  rw [Camera.planeRight_div_planeUp Real.tan 1920 1080 (Real.pi / 2) 1 2 (by decide)
    (by decide) ht]
  norm_num

/-- C7: for `fStop > 0` and `focalLength > 0` the lens radius the constructor stores,
`(focalLength / fStop) * 0.5`, equals `focalLength / (2 * fStop)` and is not negative. -/
theorem Camera.ctor_lensRadius {K : Type} [LinearOrderedField K] (tanf : K → K) (w h : Int)
    (fov len fStop : K) (hfStop : 0 < fStop) (hlen : 0 < len) :
    (Camera.ctor (exactOps tanf) w h fov len fStop)._lensRadius = (len / fStop) * 0.5 ∧
    (Camera.ctor (exactOps tanf) w h fov len fStop)._lensRadius = len / (2 * fStop) ∧
    0 ≤ (Camera.ctor (exactOps tanf) w h fov len fStop)._lensRadius := by
  have h2 : (Camera.ctor (exactOps tanf) w h fov len fStop)._lensRadius
      = len / (2 * fStop) := by
    have h05 : (0.5 : K) = 1 / 2 := by norm_num
    simp only [Camera.ctor, exactOps, h05]
    rw [div_mul_div_comm, mul_one, mul_comm fStop 2]
  refine ⟨rfl, h2, ?_⟩
  rw [h2]
  positivity

/-- Witness of C7 at focal length 1 and f-stop 2: the lens radius is `1 / (2 * 2)`. -/
theorem Camera.ctor_lensRadius_witness :
    (Camera.ctor (exactOps Real.tan) 1920 1080 (Real.pi / 2) 1 2)._lensRadius
      = ((1 : ℝ) / 2) * 0.5 ∧
    (Camera.ctor (exactOps Real.tan) 1920 1080 (Real.pi / 2) 1 2)._lensRadius
      = (1 : ℝ) / (2 * 2) ∧
    0 ≤ (Camera.ctor (exactOps Real.tan) 1920 1080 (Real.pi / 2) 1 2)._lensRadius :=
  Camera.ctor_lensRadius Real.tan 1920 1080 (Real.pi / 2) 1 2 two_pos one_pos

section MeshLemmas

variable {K : Type} [LinearOrderedField K]

/-- A loop that writes `g i` to slot `i` for `i < k` fills the first `k` slots. -/
theorem foldl_set_range {β : Type} (g : Nat → β) (buf : List β) :
    ∀ k, k ≤ buf.length →
      (List.range k).foldl (fun b i => b.set i (g i)) buf
        = (List.range k).map g ++ buf.drop k := by
  intro k
  induction k with
  | zero => intro _; simp
  | succ k ih =>
    intro hk
    have hk1 : k < buf.length := hk
    rw [List.range_succ, List.foldl_append, ih hk1.le]
    simp only [List.foldl_cons, List.foldl_nil, List.map_append, List.map_cons, List.map_nil]
    have hd : (List.drop k buf).set 0 (g k) = g k :: List.drop (k + 1) buf := by
      rw [List.drop_eq_getElem_cons hk1]
      rfl
    rw [List.set_append_right _ _ (by simp)]
    simp [hd]

theorem map_getD_range {α β : Type} (f : α → β) (d : α) (l : List α) :
    (List.range l.length).map (fun i => f (l.getD i d)) = l.map f := by
  apply List.ext_getElem
  · simp
  · intro i h1 h2
    simp at h1
    simp [List.getD_eq_getElem, h1]

/-- The face loop stores, slot by slot, the tuple of each face. -/
theorem Mesh.faceLoop_eq (mFaces : List AiFace) :
    Mesh.faceLoop mFaces mFaces.length = mFaces.map Mesh.faceTuple := by
  unfold Mesh.faceLoop
  rw [foldl_set_range (fun i => Mesh.faceTuple (mFaces.getD i ⟨[]⟩)) (freshInt3 mFaces.length)
    mFaces.length (by simp [freshInt3])]
  rw [map_getD_range Mesh.faceTuple ⟨[]⟩ mFaces]
  simp [freshInt3]

/-- The vertex loop after `k` iterations. -/
theorem Mesh.vertexFold (sqrtf : K → K) (o : Float3 K) (vs ns : List (Float3 K))
    (st : VertexLoop K) :
    ∀ k, k ≤ st.vertexMap.length → k ≤ st.normalMap.length →
      (List.range k).foldl (Mesh.vertexStep sqrtf o vs ns) st
        = { vertexMap := (List.range k).map (fun i => (vs.getD i ⟨0, 0, 0⟩).add o)
              ++ st.vertexMap.drop k
            normalMap := (List.range k).map (fun i => normalize sqrtf (ns.getD i ⟨0, 0, 0⟩))
              ++ st.normalMap.drop k
            b := ((List.range k).map (fun i => (vs.getD i ⟨0, 0, 0⟩).add o)).foldl
              Aabb.include st.b } := by
  intro k
  induction k with
  | zero => intro _ _; simp
  | succ k ih =>
    intro hk1 hk2
    have h1 : k < st.vertexMap.length := hk1
    have h2 : k < st.normalMap.length := hk2
    rw [List.range_succ, List.foldl_append, ih h1.le h2.le]
    simp only [List.foldl_cons, List.foldl_nil, List.map_append, List.map_cons, List.map_nil,
      Mesh.vertexStep, make_float3, List.foldl_append]
    have hd1 : ∀ x, (List.drop k st.vertexMap).set 0 x = x :: List.drop (k + 1) st.vertexMap := by
      intro x
      rw [List.drop_eq_getElem_cons h1]
      rfl
    have hd2 : ∀ x, (List.drop k st.normalMap).set 0 x = x :: List.drop (k + 1) st.normalMap := by
      intro x
      rw [List.drop_eq_getElem_cons h2]
      rfl
    rw [List.set_append_right _ _ (by simp), List.set_append_right _ _ (by simp)]
    simp [hd1, hd2, List.getElem_append_right]

/-- The vertex loop over a position array of `mNumVertices` elements: the offset positions
in order, and the local box is the fold of `include` over them from the invalid box. -/
theorem Mesh.vertexLoop_eq (sqrtf : K → K) (o : Float3 K) (vs ns : List (Float3 K)) :
    Mesh.vertexLoop sqrtf o vs ns vs.length
      = { vertexMap := vs.map (fun p => p.add o)
          normalMap := (List.range vs.length).map
            (fun i => normalize sqrtf (ns.getD i ⟨0, 0, 0⟩))
          b := (vs.map (fun p => p.add o)).foldl Aabb.include Aabb.invalid } := by
  unfold Mesh.vertexLoop
  rw [Mesh.vertexFold sqrtf o vs ns _ vs.length (by simp [freshFloat3]) (by simp [freshFloat3])]
  rw [map_getD_range (fun p => p.add o) ⟨0, 0, 0⟩ vs]
  simp [freshFloat3]

theorem max_right_comm_K (a b c : K) : max (max a b) c = max (max a c) b := by
  rw [max_assoc, max_comm b c, ← max_assoc]

/-- Including two points in either order gives the same box. -/
theorem Aabb.include_right_comm (b : Aabb K) (p q : Float3 K) :
    (b.include p).include q = (b.include q).include p := by
  simp only [Aabb.include, fminf3, fmaxf3, min_right_comm _ p.x, min_right_comm _ p.y,
    min_right_comm _ p.z, max_right_comm_K _ p.x, max_right_comm_K _ p.y, max_right_comm_K _ p.z]

/-- The box accumulated over a list of points does not depend on their order. -/
theorem Aabb.foldl_include_perm (l₁ l₂ : List (Float3 K)) (hp : l₁.Perm l₂) (b : Aabb K) :
    l₁.foldl Aabb.include b = l₂.foldl Aabb.include b := by
  induction hp generalizing b with
  | nil => rfl
  | cons x _ ih => exact ih (b.include x)
  | swap x y l => simp only [List.foldl_cons, Aabb.include_right_comm b y x]
  | trans _ _ ih₁ ih₂ => exact (ih₁ b).trans (ih₂ b)

/-- Including a point lowers or keeps every min component and raises or keeps every max
component. -/
theorem Aabb.include_mono (b : Aabb K) (p : Float3 K) :
    (b.include p).m_min.x ≤ b.m_min.x ∧ (b.include p).m_min.y ≤ b.m_min.y ∧
    (b.include p).m_min.z ≤ b.m_min.z ∧ b.m_max.x ≤ (b.include p).m_max.x ∧
    b.m_max.y ≤ (b.include p).m_max.y ∧ b.m_max.z ≤ (b.include p).m_max.z := by
  simp [Aabb.include, fminf3, fmaxf3]

/-- A face without exactly 3 indices is stored as the sentinel. -/
theorem Mesh.faceTuple_sentinel (face : AiFace) (h : face.mNumIndices ≠ 3) :
    Mesh.faceTuple face = ⟨-1, -1, -1⟩ := by
  simp [Mesh.faceTuple, h, make_int3_1]

/-- A face of exactly 3 indices is stored as its indices, converted to `int`. -/
theorem Mesh.faceTuple_triangle (face : AiFace) (a b c : Nat) (h : face.mIndices = [a, b, c]) :
    Mesh.faceTuple face = ⟨toInt32 a, toInt32 b, toInt32 c⟩ := by
  simp [Mesh.faceTuple, AiFace.mNumIndices, h, make_int3]

/-- An `unsigned int` below `2 ^ 31` keeps its value as an `int`. -/
theorem toInt32_of_lt (u : Nat) (h : u < 2 ^ 31) : toInt32 u = (u : Int) := by
  have h32 : u % 2 ^ 32 = u := Nat.mod_eq_of_lt (by omega)
  unfold toInt32
  rw [h32, if_pos h]

/-- A successful import: the state `readPolyModel` leaves when the first sub-mesh has
positions and normals. -/
theorem Mesh.readPolyModel_ok (ReadFile : String → Importer K) (sqrtf : K → K) (name : String)
    (self : Mesh K) (scene : AiScene K) (mesh : AiMesh K) (rest : List (AiMesh K))
    (hs : (ReadFile name).scene = some scene) (hm : scene.mMeshes = mesh :: rest)
    (hpos : mesh.HasPositions = true) (hnrm : mesh.HasNormals = true) :
    Mesh.readPolyModel ReadFile sqrtf name self
      = (.ok (),
          { self with
            _ctx := ((self._ctx.createBuffer .RT_FORMAT_FLOAT3 mesh.mNumVertices).createBuffer
              .RT_FORMAT_FLOAT3 mesh.mNumVertices).createBuffer .RT_FORMAT_INT3 mesh.mNumFaces
            _vertices := some (.float3 (Mesh.vertexLoop sqrtf self._origin
              (mesh.mVertices.getD []) (mesh.mNormals.getD []) mesh.mNumVertices).vertexMap)
            _normals := some (.float3 (Mesh.vertexLoop sqrtf self._origin
              (mesh.mVertices.getD []) (mesh.mNormals.getD []) mesh.mNumVertices).normalMap)
            _faces := some (.int3 (mesh.mFaces.map Mesh.faceTuple))
            _numFaces := mesh.mNumFaces }) := by
  simp only [Mesh.readPolyModel, hs, hm, hpos, hnrm, AiMesh.mNumFaces, Mesh.faceLoop_eq]
  rfl

/-- No scene: the exception carries the importer's error text, the state is untouched. -/
theorem Mesh.readPolyModel_null (ReadFile : String → Importer K) (sqrtf : K → K)
    (name : String) (self : Mesh K) (hs : (ReadFile name).scene = none) :
    Mesh.readPolyModel ReadFile sqrtf name self
      = (.error (.runtime_error (ReadFile name).GetErrorString), self) := by
  simp only [Mesh.readPolyModel, hs]

/-- A scene without sub-meshes: normal return, the state is untouched. -/
theorem Mesh.readPolyModel_empty (ReadFile : String → Importer K) (sqrtf : K → K)
    (name : String) (self : Mesh K) (scene : AiScene K)
    (hs : (ReadFile name).scene = some scene) (hm : scene.mMeshes = []) :
    Mesh.readPolyModel ReadFile sqrtf name self = (.ok (), self) := by
  simp only [Mesh.readPolyModel, hs, hm]

/-- The first sub-mesh has no positions: exception, the state is untouched. -/
theorem Mesh.readPolyModel_positions (ReadFile : String → Importer K) (sqrtf : K → K)
    (name : String) (self : Mesh K) (scene : AiScene K) (mesh : AiMesh K)
    (rest : List (AiMesh K)) (hs : (ReadFile name).scene = some scene)
    (hm : scene.mMeshes = mesh :: rest) (hpos : mesh.HasPositions = false) :
    Mesh.readPolyModel ReadFile sqrtf name self
      = (.error (.runtime_error "No vertex positions on the mesh"), self) := by
  simp [Mesh.readPolyModel, hs, hm, hpos]

/-- The first sub-mesh has positions but no normals: exception, the state is untouched. -/
theorem Mesh.readPolyModel_normals (ReadFile : String → Importer K) (sqrtf : K → K)
    (name : String) (self : Mesh K) (scene : AiScene K) (mesh : AiMesh K)
    (rest : List (AiMesh K)) (hs : (ReadFile name).scene = some scene)
    (hm : scene.mMeshes = mesh :: rest) (hpos : mesh.HasPositions = true)
    (hnrm : mesh.HasNormals = false) :
    Mesh.readPolyModel ReadFile sqrtf name self
      = (.error (.runtime_error "No vertex normals on the mesh"), self) := by
  simp [Mesh.readPolyModel, hs, hm, hpos, hnrm]

/-- The member `_bounds` is not assigned by `readPolyModel`, whatever the import gives. -/
theorem Mesh.readPolyModel_bounds (ReadFile : String → Importer K) (sqrtf : K → K)
    (name : String) (self : Mesh K) :
    (Mesh.readPolyModel ReadFile sqrtf name self).2._bounds = self._bounds := by
  cases hs : (ReadFile name).scene with
  | none => rw [Mesh.readPolyModel_null ReadFile sqrtf name self hs]
  | some scene =>
    cases hm : scene.mMeshes with
    | nil => rw [Mesh.readPolyModel_empty ReadFile sqrtf name self scene hs hm]
    | cons mesh rest =>
      cases hpos : mesh.HasPositions with
      | false => rw [Mesh.readPolyModel_positions ReadFile sqrtf name self scene mesh rest hs hm hpos]
      | true =>
        cases hnrm : mesh.HasNormals with
        | false =>
          rw [Mesh.readPolyModel_normals ReadFile sqrtf name self scene mesh rest hs hm hpos hnrm]
        | true =>
          rw [Mesh.readPolyModel_ok ReadFile sqrtf name self scene mesh rest hs hm hpos hnrm]

/-- The range of the stored indices rests on the importer's validation: the triangle
`(0, 1, 4294967295)`, which a validated sub-mesh cannot contain, would be stored as
`(0, 1, -1)`. -/
theorem Mesh.faceTuple_unvalidated :
    Mesh.faceTuple ⟨[0, 1, 4294967295]⟩ = ⟨0, 1, -1⟩ := by
  decide

/-- In a validated sub-mesh a triangle is stored as its three indices, each of them in
`[0, mNumVertices)`. -/
theorem Mesh.faceTuple_validated {F : Type} (mesh : AiMesh F) (hv : ValidatedMesh mesh) (face : AiFace)
    (hf : face ∈ mesh.mFaces) (a b c : Nat) (h : face.mIndices = [a, b, c]) :
    Mesh.faceTuple face = ⟨(a : Int), (b : Int), (c : Int)⟩ ∧
    a < mesh.mNumVertices ∧ b < mesh.mNumVertices ∧ c < mesh.mNumVertices := by
  have hmax : mesh.mNumVertices ≤ 0x7fffffff := hv.1
  have ha : a < mesh.mNumVertices := hv.2 face hf a (by simp [h])
  have hb : b < mesh.mNumVertices := hv.2 face hf b (by simp [h])
  have hc : c < mesh.mNumVertices := hv.2 face hf c (by simp [h])
  refine ⟨?_, ha, hb, hc⟩
  rw [Mesh.faceTuple_triangle face a b c h, toInt32_of_lt a (by omega),
    toInt32_of_lt b (by omega), toInt32_of_lt c (by omega)]

/-- After a normal return of `readPolyModel` the constructor sets the three buffer
variables and freezes the mesh. -/
theorem Mesh.ctor_of_ok (ReadFile : String → Importer K) (sqrtf : K → K) (ctx : Context)
    (origin : Float3 K) (name : String) (numFaces0 : Nat) (st : Mesh K)
    (h : Mesh.readPolyModel ReadFile sqrtf name (Mesh.init ctx origin numFaces0) = (.ok (), st)) :
    Mesh.ctor ReadFile sqrtf ctx origin name numFaces0
      = .ok { st with
          _geom := ("faceIndices", st._faces) :: ("normalBuffer", st._normals)
            :: ("vertexBuffer", st._vertices) :: st._geom
          frozen := true } := by
  simp only [Mesh.ctor, h]

/-- Whatever is imported, a constructed mesh returns the default-constructed box. -/
theorem Mesh.ctor_getBoundingBox (ReadFile : String → Importer K) (sqrtf : K → K)
    (ctx : Context) (origin : Float3 K) (name : String) (numFaces0 : Nat) (m : Mesh K)
    (h : Mesh.ctor ReadFile sqrtf ctx origin name numFaces0 = .ok m) :
    m.getBoundingBox = Aabb.invalid := by
  have hb := Mesh.readPolyModel_bounds ReadFile sqrtf name (Mesh.init ctx origin numFaces0)
  cases hr : Mesh.readPolyModel ReadFile sqrtf name (Mesh.init ctx origin numFaces0) with
  | mk r st =>
    rw [hr] at hb
    cases r with
    | error e => simp [Mesh.ctor, hr] at h
    | ok u =>
      rw [Mesh.ctor_of_ok ReadFile sqrtf ctx origin name numFaces0 st hr] at h
      injection h with h
      rw [← h]
      exact hb

end MeshLemmas

/-! ## Mesh: claims -/

/-- C9: the box accumulated by the vertex loop of `readPolyModel` is order-independent and
monotonic: for a vertex array and any permutation of it the loop ends with the same min
and max corners, and a loop over one more vertex ends with min components that are not
higher and max components that are not lower. -/
theorem Mesh.vertexLoop_box_perm_mono {K : Type} [LinearOrderedField K] (sqrtf : K → K)
    (o : Float3 K) (vs vs2 ns ns2 : List (Float3 K)) (v n : Float3 K) (hp : vs.Perm vs2) :
    (Mesh.vertexLoop sqrtf o vs ns vs.length).b
      = (Mesh.vertexLoop sqrtf o vs2 ns2 vs2.length).b ∧
    (Mesh.vertexLoop sqrtf o (vs ++ [v]) (ns ++ [n]) (vs ++ [v]).length).b.m_min.x
      ≤ (Mesh.vertexLoop sqrtf o vs ns vs.length).b.m_min.x ∧
    (Mesh.vertexLoop sqrtf o (vs ++ [v]) (ns ++ [n]) (vs ++ [v]).length).b.m_min.y
      ≤ (Mesh.vertexLoop sqrtf o vs ns vs.length).b.m_min.y ∧
    (Mesh.vertexLoop sqrtf o (vs ++ [v]) (ns ++ [n]) (vs ++ [v]).length).b.m_min.z
      ≤ (Mesh.vertexLoop sqrtf o vs ns vs.length).b.m_min.z ∧
    (Mesh.vertexLoop sqrtf o vs ns vs.length).b.m_max.x
      ≤ (Mesh.vertexLoop sqrtf o (vs ++ [v]) (ns ++ [n]) (vs ++ [v]).length).b.m_max.x ∧
    (Mesh.vertexLoop sqrtf o vs ns vs.length).b.m_max.y
      ≤ (Mesh.vertexLoop sqrtf o (vs ++ [v]) (ns ++ [n]) (vs ++ [v]).length).b.m_max.y ∧
    (Mesh.vertexLoop sqrtf o vs ns vs.length).b.m_max.z
      ≤ (Mesh.vertexLoop sqrtf o (vs ++ [v]) (ns ++ [n]) (vs ++ [v]).length).b.m_max.z := by
  rw [Mesh.vertexLoop_eq, Mesh.vertexLoop_eq, Mesh.vertexLoop_eq]
  refine ⟨Aabb.foldl_include_perm _ _ (hp.map _) _, ?_⟩
  simp only [List.map_append, List.map_cons, List.map_nil, List.foldl_append, List.foldl_cons,
    List.foldl_nil]
  exact Aabb.include_mono _ _

/-- Witness of C9: three cube corners and the same corners with the first two swapped. -/
theorem Mesh.vertexLoop_box_perm_mono_witness :
    (Mesh.vertexLoop Rat.sqrt ⟨0, 0, 0⟩
        [⟨-1/2, -1/2, -1/2⟩, ⟨1/2, -1/2, -1/2⟩, ⟨1/2, 1/2, -1/2⟩] [] 3).b
      = (Mesh.vertexLoop Rat.sqrt ⟨0, 0, 0⟩
        [⟨1/2, -1/2, -1/2⟩, ⟨-1/2, -1/2, -1/2⟩, ⟨1/2, 1/2, -1/2⟩] [] 3).b :=
  (Mesh.vertexLoop_box_perm_mono Rat.sqrt ⟨0, 0, 0⟩
    [⟨-1/2, -1/2, -1/2⟩, ⟨1/2, -1/2, -1/2⟩, ⟨1/2, 1/2, -1/2⟩]
    [⟨1/2, -1/2, -1/2⟩, ⟨-1/2, -1/2, -1/2⟩, ⟨1/2, 1/2, -1/2⟩] [] [] ⟨0, 0, 1/2⟩ ⟨0, 0, 1⟩
    (List.Perm.swap _ _ _)).1

/-- C4: for a validated sub-mesh of `n` faces that imports, `readPolyModel` stores exactly
`n` face tuples and `getPrimitiveCount()` returns `n`; the tuple at position `i` is the
three indices of face `i` in order when that face has exactly 3 indices, and
`(-1, -1, -1)` when it has any other number of indices. -/
theorem Mesh.readPolyModel_faces {K : Type} [LinearOrderedField K]
    (ReadFile : String → Importer K) (sqrtf : K → K) (name : String) (self : Mesh K)
    (scene : AiScene K) (mesh : AiMesh K) (rest : List (AiMesh K))
    (hs : (ReadFile name).scene = some scene) (hm : scene.mMeshes = mesh :: rest)
    (hpos : mesh.HasPositions = true) (hnrm : mesh.HasNormals = true)
    (hv : ValidatedMesh mesh) :
    ∃ faceMap : List Int3,
      (Mesh.readPolyModel ReadFile sqrtf name self).1 = .ok () ∧
      (Mesh.readPolyModel ReadFile sqrtf name self).2._faces = some (.int3 faceMap) ∧
      faceMap.length = mesh.mNumFaces ∧
      (Mesh.readPolyModel ReadFile sqrtf name self).2.getPrimitiveCount = mesh.mNumFaces ∧
      ∀ (i : Nat) (face : AiFace), mesh.mFaces[i]? = some face →
        (∀ a b c : Nat, face.mIndices = [a, b, c] →
          faceMap[i]? = some ⟨(a : Int), (b : Int), (c : Int)⟩) ∧
        (face.mNumIndices ≠ 3 → faceMap[i]? = some ⟨-1, -1, -1⟩) := by
  refine ⟨mesh.mFaces.map Mesh.faceTuple, ?_, ?_, ?_, ?_, ?_⟩
  · rw [Mesh.readPolyModel_ok ReadFile sqrtf name self scene mesh rest hs hm hpos hnrm]
  · rw [Mesh.readPolyModel_ok ReadFile sqrtf name self scene mesh rest hs hm hpos hnrm]
  · simp [AiMesh.mNumFaces]
  · rw [Mesh.readPolyModel_ok ReadFile sqrtf name self scene mesh rest hs hm hpos hnrm]
    rfl
  · intro i face hi
    have hf : face ∈ mesh.mFaces := List.getElem?_mem hi
    have hget : (mesh.mFaces.map Mesh.faceTuple)[i]? = some (Mesh.faceTuple face) := by
      rw [List.getElem?_map, hi]
      rfl
    refine ⟨?_, ?_⟩
    · intro a b c habc
      rw [hget, (Mesh.faceTuple_validated mesh hv face hf a b c habc).1]
    · intro h3
      rw [hget, Mesh.faceTuple_sentinel face h3]

/-- Witness of C4 at the square given as a triangle, a quad and a triangle. -/
theorem Mesh.readPolyModel_faces_witness :
    ∃ faceMap : List Int3,
      (Mesh.readPolyModel (sceneOf [quadMesh]) Rat.sqrt "quad.obj" mesh0).1 = .ok () ∧
      (Mesh.readPolyModel (sceneOf [quadMesh]) Rat.sqrt "quad.obj" mesh0).2._faces
        = some (.int3 faceMap) ∧
      faceMap.length = quadMesh.mNumFaces ∧
      (Mesh.readPolyModel (sceneOf [quadMesh]) Rat.sqrt "quad.obj" mesh0).2.getPrimitiveCount
        = quadMesh.mNumFaces ∧
      ∀ (i : Nat) (face : AiFace), quadMesh.mFaces[i]? = some face →
        (∀ a b c : Nat, face.mIndices = [a, b, c] →
          faceMap[i]? = some ⟨(a : Int), (b : Int), (c : Int)⟩) ∧
        (face.mNumIndices ≠ 3 → faceMap[i]? = some ⟨-1, -1, -1⟩) :=
  Mesh.readPolyModel_faces (sceneOf [quadMesh]) Rat.sqrt "quad.obj" mesh0 ⟨[quadMesh]⟩
    quadMesh [] rfl rfl rfl rfl (by simp [ValidatedMesh, quadMesh, AI_MAX_VERTICES])

/-- C5: `readPolyModel` throws the import error (the runtime error with the importer's
text) when the importer reports no scene, and a validation error when the first sub-mesh
lacks vertex positions and, in a separate check, when it lacks vertex normals; in each of
these failures the state is the one before the call: no buffer created on the context, the
three buffer handles, the face count and the bounding box as they were. -/
theorem Mesh.readPolyModel_failures {K : Type} [LinearOrderedField K]
    (ReadFile : String → Importer K) (sqrtf : K → K) (name : String) (self : Mesh K) :
    ((ReadFile name).scene = none →
      Mesh.readPolyModel ReadFile sqrtf name self
        = (.error (.runtime_error (ReadFile name).GetErrorString), self)) ∧
    (∀ (scene : AiScene K) (mesh : AiMesh K) (rest : List (AiMesh K)),
      (ReadFile name).scene = some scene → scene.mMeshes = mesh :: rest →
      mesh.HasPositions = false →
      Mesh.readPolyModel ReadFile sqrtf name self
        = (.error (.runtime_error "No vertex positions on the mesh"), self)) ∧
    (∀ (scene : AiScene K) (mesh : AiMesh K) (rest : List (AiMesh K)),
      (ReadFile name).scene = some scene → scene.mMeshes = mesh :: rest →
      mesh.HasPositions = true → mesh.HasNormals = false →
      Mesh.readPolyModel ReadFile sqrtf name self
        = (.error (.runtime_error "No vertex normals on the mesh"), self)) :=
  ⟨Mesh.readPolyModel_null ReadFile sqrtf name self,
    fun scene mesh rest => Mesh.readPolyModel_positions ReadFile sqrtf name self scene mesh rest,
    fun scene mesh rest => Mesh.readPolyModel_normals ReadFile sqrtf name self scene mesh rest⟩

/-- Witness of C5: a failing importer, a sub-mesh without positions, and a triangle without
normals; each call fails and leaves the fresh mesh as it was. -/
theorem Mesh.readPolyModel_failures_witness :
    Mesh.readPolyModel noScene Rat.sqrt "missing.obj" mesh0
      = (.error (.runtime_error "Unable to open file"), mesh0) ∧
    Mesh.readPolyModel (sceneOf [noPositionsMesh]) Rat.sqrt "empty.obj" mesh0
      = (.error (.runtime_error "No vertex positions on the mesh"), mesh0) ∧
    Mesh.readPolyModel (sceneOf [noNormalsMesh]) Rat.sqrt "triangle.obj" mesh0
      = (.error (.runtime_error "No vertex normals on the mesh"), mesh0) :=
  ⟨(Mesh.readPolyModel_failures noScene Rat.sqrt "missing.obj" mesh0).1 rfl,
    (Mesh.readPolyModel_failures (sceneOf [noPositionsMesh]) Rat.sqrt "empty.obj" mesh0).2.1
      ⟨[noPositionsMesh]⟩ noPositionsMesh [] rfl rfl rfl,
    (Mesh.readPolyModel_failures (sceneOf [noNormalsMesh]) Rat.sqrt "triangle.obj" mesh0).2.2
      ⟨[noNormalsMesh]⟩ noNormalsMesh [] rfl rfl rfl rfl⟩

/-- C10: when the importer returns a scene with zero sub-meshes, `readPolyModel` returns
normally and leaves the state as it was (no buffer created, the face count and the
bounding box not assigned), and the constructor goes on to freeze the mesh: the buffer
handles are still null, the face count is the initial value and the box the default one. -/
theorem Mesh.readPolyModel_no_meshes {K : Type} [LinearOrderedField K]
    (ReadFile : String → Importer K) (sqrtf : K → K) (name : String) (self : Mesh K)
    (ctx : Context) (origin : Float3 K) (numFaces0 : Nat) (scene : AiScene K)
    (hs : (ReadFile name).scene = some scene) (h0 : scene.mNumMeshes = 0) :
    Mesh.readPolyModel ReadFile sqrtf name self = (.ok (), self) ∧
    ∃ m : Mesh K,
      Mesh.ctor ReadFile sqrtf ctx origin name numFaces0 = .ok m ∧
      m.frozen = true ∧ m._ctx = ctx ∧
      m._vertices = none ∧ m._normals = none ∧ m._faces = none ∧
      m.getPrimitiveCount = numFaces0 ∧ m.getBoundingBox = Aabb.invalid := by
  have hm : scene.mMeshes = [] := List.length_eq_zero.mp h0
  refine ⟨Mesh.readPolyModel_empty ReadFile sqrtf name self scene hs hm, ?_⟩
  refine ⟨_, Mesh.ctor_of_ok ReadFile sqrtf ctx origin name numFaces0 _
    (Mesh.readPolyModel_empty ReadFile sqrtf name _ scene hs hm), ?_⟩
  simp [Mesh.init, Mesh.getPrimitiveCount, Mesh.getBoundingBox]

/-- Witness of C10: the importer that returns a scene with no sub-mesh. -/
theorem Mesh.readPolyModel_no_meshes_witness :
    Mesh.readPolyModel (sceneOf []) Rat.sqrt "nothing.obj" mesh0 = (.ok (), mesh0) ∧
    ∃ m : Mesh ℚ,
      Mesh.ctor (sceneOf []) Rat.sqrt ⟨[]⟩ ⟨0, 0, 0⟩ "nothing.obj" 7 = .ok m ∧
      m.frozen = true ∧ m._ctx = ⟨[]⟩ ∧
      m._vertices = none ∧ m._normals = none ∧ m._faces = none ∧
      m.getPrimitiveCount = 7 ∧ m.getBoundingBox = Aabb.invalid :=
  Mesh.readPolyModel_no_meshes (sceneOf []) Rat.sqrt "nothing.obj" mesh0 ⟨[]⟩ ⟨0, 0, 0⟩ 7
    ⟨[]⟩ rfl rfl

/-- C1 at the unit cube centred at the origin with offset `(0, 0, 0)`: the vertex loop
ends with the local box `(-0.5, -0.5, -0.5)` to `(0.5, 0.5, 0.5)`, but the constructed mesh
(12 faces) returns from `getBoundingBox()` the default-constructed box, min corner `1e37`
and max corner `-1e37`, which is not the box of the cube. -/
theorem Mesh.cube_getBoundingBox :
    (Mesh.vertexLoop Rat.sqrt ⟨0, 0, 0⟩ (cubeMesh.mVertices.getD []) (cubeMesh.mNormals.getD [])
        cubeMesh.mNumVertices).b
      = ⟨⟨-1/2, -1/2, -1/2⟩, ⟨1/2, 1/2, 1/2⟩⟩ ∧
    ∃ m : Mesh ℚ,
      Mesh.ctor (sceneOf [cubeMesh]) Rat.sqrt ⟨[]⟩ ⟨0, 0, 0⟩ "cube.obj" 0 = .ok m ∧
      m.getPrimitiveCount = 12 ∧
      m.getBoundingBox
        = ⟨⟨10 ^ 37, 10 ^ 37, 10 ^ 37⟩, ⟨-10 ^ 37, -10 ^ 37, -10 ^ 37⟩⟩ ∧
      m.getBoundingBox ≠ ⟨⟨-1/2, -1/2, -1/2⟩, ⟨1/2, 1/2, 1/2⟩⟩ := by
  constructor
  · have h := Mesh.vertexLoop_eq Rat.sqrt ⟨0, 0, 0⟩ (cubeMesh.mVertices.getD [])
      (cubeMesh.mNormals.getD [])
    have hb := congrArg VertexLoop.b h
    refine Eq.trans hb ?_
    simp only [cubeMesh, Option.getD_some, List.map, List.foldl, Aabb.include, Aabb.invalid,
      fminf3, fmaxf3, Float3.add, make_float3]
    norm_num
  · have hok := Mesh.readPolyModel_ok (sceneOf [cubeMesh]) Rat.sqrt "cube.obj"
      (Mesh.init ⟨[]⟩ ⟨0, 0, 0⟩ 0) ⟨[cubeMesh]⟩ cubeMesh [] rfl rfl rfl rfl
    refine ⟨_, Mesh.ctor_of_ok (sceneOf [cubeMesh]) Rat.sqrt ⟨[]⟩ ⟨0, 0, 0⟩ "cube.obj" 0 _ hok,
      rfl, rfl, ?_⟩
    simp only [Mesh.getBoundingBox, Mesh.init, Aabb.invalid, make_float3]
    intro h
    injection h with h1 h2
    injection h1 with hx
    norm_num at hx

end Xray
